import Mathlib

/-!
Shallow embedding of the session/relay engine of `mower_mqtt_bridge.py`
(worx-mower-mqtt-bridge): the REST transport with its backoff loop, the
token exchange and expiry check, the fleet directory, the two MQTT session
callbacks, the discovery single-fire guard, the token-refresh supervisor
start guard, the shutdown sequence, and the derived cloud transport
credential.  Machine integers are modelled as `Int`/`Nat`; the fractional
backoff value that Python computes with `2 ** (retry - 1)` is modelled
exactly in `ℚ`.
-/

/-! ### Module-level constants (lines 73-77 of the source) -/

def QOS_FLAG : ℕ := 1

def NUM_RETRIES : ℕ := 5

def MAX_BACKOFF : ℚ := 120

def BACKOFF_FACTOR : ℚ := 3

/-! ### REST transport: `CloudEndpointAPI.backoff` and `CloudEndpointAPI.request` -/

/-- Python integer exponentiation `2 ** k` for an `Int` exponent: an exact
rational, `2^k` for `k ≥ 0` and `1 / 2^(-k)` otherwise (Python returns the
float `0.5` for `2 ** (-1)`; the value is exactly representable). -/
def pyIntPow2 (k : ℤ) : ℚ :=
  if 0 ≤ k then (2 : ℚ) ^ k.toNat else 1 / (2 : ℚ) ^ (-k).toNat

/-- `CloudEndpointAPI.backoff` (source lines 93-98): computes
`val = BACKOFF_FACTOR * (2 ** (retry - 1))` and sleeps `val` capped at
`MAX_BACKOFF`.  The returned value is the number of seconds slept. -/
def CloudEndpointAPI.backoff (retry : ℕ) : ℚ :=
  let val : ℚ := BACKOFF_FACTOR * pyIntPow2 ((retry : ℤ) - 1)
  if val ≤ MAX_BACKOFF then val else MAX_BACKOFF

/-- Outcome of one HTTP attempt inside `request`: either
`response.raise_for_status()` passes and `response.json()` is returned, or
an `requests.exceptions.HTTPError` with the given status code is raised. -/
inductive HttpResp (α : Type) where
  | success (body : α)
  | httpError (code : ℕ)

/-- How a call to `CloudEndpointAPI.request` ends. -/
inductive RequestOutcome (α : Type) where
  | ok (body : α)      -- `return response.json()`
  | retNone            -- the bare `return` in the 504 branch (returns None)
  | exit1              -- `sys.exit(1)` on any other HTTP error status
  | connError          -- the raise after the loop (`No Connection to Cloud Endpoint API`)
deriving DecidableEq

/-- The body of `request`'s retry loop (source lines 115-140), at loop index
`retry`, with `sleeps` the backoff durations slept so far.  Every arm of the
source's loop body leaves the function (`return response.json()`, the bare
`return` after `self.backoff(retry)` in the 504 branch, or `sys.exit(1)`),
so the loop body never falls through to a next iteration; the else branch
models exhaustion of `range(NUM_RETRIES)`. -/
def CloudEndpointAPI.requestFrom {α : Type} (responses : ℕ → HttpResp α)
    (retry : ℕ) (sleeps : List ℚ) : RequestOutcome α × List ℚ :=
  if retry < NUM_RETRIES then
    match responses retry with
    | .success body => (.ok body, sleeps)
    | .httpError code =>
        if code = 504 then
          (.retNone, sleeps ++ [CloudEndpointAPI.backoff retry])
        else
          (.exit1, sleeps)
  else
    (.connError, sleeps)

/-- `CloudEndpointAPI.request` (source lines 109-140), as a function of the
sequence of HTTP responses the server would give to attempt 0, 1, ...;
returns how the call ends together with the list of backoff sleeps
performed. -/
def CloudEndpointAPI.request {α : Type} (responses : ℕ → HttpResp α) :
    RequestOutcome α × List ℚ :=
  CloudEndpointAPI.requestFrom responses 0 []

/-! ### Token state, `CloudEndpointAPI.get_token`, `CloudEndpointAPI.is_token_expired` -/

/-- The token fields of a `CloudEndpointAPI` instance (source lines 86-88):
`access_token` and `refresh_token` start as `None`, `token_expire` as `0`.
Instants are POSIX seconds as integers (`int(time.time())`). -/
structure TokenState where
  access_token : Option String
  refresh_token : Option String
  token_expire : ℤ
deriving DecidableEq

/-- A token-endpoint JSON response as consulted by `get_token`: each field
read with `response.get(...)`, so a missing field yields `None`. -/
structure TokenResponse where
  access_token : Option String
  refresh_token : Option String
  expires_in : Option ℤ

/-- Python truthiness of `not field` for an optional string field: `None`
and the empty string are falsy. -/
def pyFalsy : Option String → Bool
  | none => true
  | some s => s.isEmpty

/-- How a call to `CloudEndpointAPI.get_token` ends. -/
inductive GetTokenResult where
  | ok
  | authError   -- `raise Exception("AuthorizationError: Unauthorized")`
  | typeError   -- `int(None)` when the response lacks `expires_in`
deriving DecidableEq

/-- `CloudEndpointAPI.get_token` (source lines 142-165) after the HTTP
exchange returned `resp`: assigns both stored token fields from the
response, then raises if either is falsy, else sets
`token_expire = now + expires_in`.  Returns how the call ends together with
the token state left behind (the mutation persists across the raise). -/
def CloudEndpointAPI.get_token (st : TokenState) (resp : TokenResponse) (now : ℤ) :
    GetTokenResult × TokenState :=
  let st1 : TokenState :=
    { st with access_token := resp.access_token, refresh_token := resp.refresh_token }
  if pyFalsy st1.access_token || pyFalsy st1.refresh_token then
    (.authError, st1)
  else
    match resp.expires_in with
    | some e => (.ok, { st1 with token_expire := now + e })
    | none => (.typeError, st1)

/-- `CloudEndpointAPI.is_token_expired` (source lines 167-170):
`int(time.time()) >= self.token_expire`. -/
def CloudEndpointAPI.is_token_expired (st : TokenState) (now : ℤ) : Bool :=
  decide (now ≥ st.token_expire)

/-! ### Fleet directory: `CloudEndpointAPI.get_model`, `CloudEndpointAPI.get_mowers` -/

/-- The per-device topic names (`mower["mqtt_topics"]`). -/
structure MqttTopics where
  command_in : String
  command_out : String
deriving DecidableEq

/-- A device dict as returned by the `product-items` endpoint, before model
enrichment (fields not consulted by the embedded operations are omitted). -/
structure RawMower where
  product_id : ℕ
  mqtt_topics : MqttTopics
deriving DecidableEq

/-- An entry of the `products` catalog endpoint. -/
structure Product where
  id : ℕ
  code : String
  default_name : String
  meters : String
  product_year : String

/-- The `mower["model"]` value built by `get_mowers` when the catalog lookup
succeeds. -/
structure ModelInfo where
  code : String
  friendly_name : String
deriving DecidableEq

/-- A device dict after `get_mowers` ran: the raw fields plus the added
`model` key (`None` when no catalog entry matched). -/
structure Mower where
  raw : RawMower
  model : Option ModelInfo
deriving DecidableEq

/-- `CloudEndpointAPI.get_model` (source lines 200-211): first catalog
product whose `id` equals `product_id`, `None` otherwise. -/
def CloudEndpointAPI.get_model (products : List Product) (product_id : ℕ) :
    Option Product :=
  products.find? (fun product => product.id == product_id)

/-- The model dict `get_mowers` stores on a successful lookup:
`code` and `friendly_name = f"{default_name}{meters} {product_year}"`. -/
def mkModelInfo (p : Product) : ModelInfo :=
  { code := p.code,
    friendly_name := p.default_name ++ p.meters ++ " " ++ p.product_year }

/-- `CloudEndpointAPI.get_mowers` (source lines 176-198): for each fetched
device, in order, enrich it with the resolved model, keeping the device
with `model = None` when `get_model` found nothing. -/
def CloudEndpointAPI.get_mowers : List RawMower → List Product → List Mower
  | [], _ => []
  | m :: rest, products =>
    let mower : Mower :=
      match CloudEndpointAPI.get_model products m.product_id with
      | some p => { raw := m, model := some (mkModelInfo p) }
      | none => { raw := m, model := none }
    mower :: CloudEndpointAPI.get_mowers rest products

/-! ### Message relay: `CloudMQTTClient.on_message` -/

/-- An MQTT message as seen by the paho callbacks: topic, payload bytes,
delivery-quality level and retained flag. -/
structure MQTTMessage where
  topic : String
  payload : List ℕ
  qos : ℕ
  retain : Bool
deriving DecidableEq

/-- `CloudMQTTClient.on_message` (source lines 253-259): the publish call it
issues on the private client for a received message `msg`, namely
`publish(msg.topic, payload=msg.payload, qos=QOS_FLAG, retain=True)`. -/
def CloudMQTTClient.on_message (msg : MQTTMessage) : MQTTMessage :=
  { topic := msg.topic, payload := msg.payload, qos := QOS_FLAG, retain := true }

/-! ### Local session connect and discovery single-fire:
`PrivateMQTTClient.on_connect` -/

/-- The only mutable field of `PrivateMQTTClient` relevant here
(source line 360): `auto_discover_sent`, initialised `False`. -/
structure PrivateState where
  auto_discover_sent : Bool
deriving DecidableEq

/-- The observable effects of one `PrivateMQTTClient.on_connect` callback. -/
structure ConnectResult where
  newState : PrivateState
  onlinePublished : Bool
  subscribed : List String
  discovery : Option (List Mower)
deriving DecidableEq

/-- `PrivateMQTTClient.on_connect` (source lines 367-385): on `rc = 0`
publishes the retained online availability message, subscribes to every
device's `command_in` topic, and, only when `auto_discover_sent` is still
false, sends the discovery announcement with the full device list and sets
the flag; on a non-zero `rc` it raises, leaving the state unchanged. -/
def PrivateMQTTClient.on_connect (mowers : List Mower) (st : PrivateState)
    (rc : ℕ) : ConnectResult :=
  if rc = 0 then
    { newState := { auto_discover_sent := true },
      onlinePublished := true,
      subscribed := mowers.map (fun m => m.raw.mqtt_topics.command_in),
      discovery := if st.auto_discover_sent then none else some mowers }
  else
    { newState := st, onlinePublished := false, subscribed := [], discovery := none }

/-- Run a sequence of local-session connect events (their paho result
codes), threading `auto_discover_sent` through; returns the final state and
the list of discovery notifications issued (each carrying the device list
that was passed to the collaborator). -/
def runConnects (mowers : List Mower) :
    List ℕ → PrivateState → PrivateState × List (List Mower)
  | [], st => (st, [])
  | rc :: rest, st =>
    let r := PrivateMQTTClient.on_connect mowers st rc
    let next := runConnects mowers rest r.newState
    (next.1,
      match r.discovery with
      | some sent => sent :: next.2
      | none => next.2)

/-! ### Shutdown sequence: `main.stop`, `CloudMQTTClient.disconnect`,
`PrivateMQTTClient.disconnect` -/

/-- The externally observable steps of the shutdown path. -/
inductive ShutdownEvent where
  | stopSupervisor                                    -- `stop_token_auto_refresh()`
  | closeCloudTransport                               -- `self.client.disconnect()`
  | publishAvailability (topic payload : String) (retain : Bool)
  | closeLocalTransport                               -- `super().disconnect()`
  | exitProcess (code : ℕ)                            -- `sys.exit(...)`
deriving DecidableEq

/-- `self.availability_topic` of the private client (source line 361). -/
def availability_topic : String := "mower_mqtt_bridge/status"

/-- `CloudMQTTClient.disconnect` (source lines 319-322): stops the token
refresh supervisor, then closes the cloud transport. -/
def CloudMQTTClient.disconnect : List ShutdownEvent :=
  [.stopSupervisor, .closeCloudTransport]

/-- `PrivateMQTTClient.disconnect` (source lines 397-400): publishes the
retained offline availability message, then closes the local transport. -/
def PrivateMQTTClient.disconnect : List ShutdownEvent :=
  [.publishAvailability availability_topic "offline" true, .closeLocalTransport]

/-- `main.stop` (source lines 710-714), the termination-signal handler:
`cloud_client.disconnect()`, then `private_client.disconnect()`, then
`sys.exit(0)`. -/
def mainStop : List ShutdownEvent :=
  CloudMQTTClient.disconnect ++ PrivateMQTTClient.disconnect ++ [.exitProcess 0]

/-! ### Token refresh supervisor start guard:
`CloudMQTTClient.start_token_auto_refresh` -/

/-- Events acting on the supervisor: a call to
`start_token_auto_refresh`, or the running refresh-loop thread
terminating. -/
inductive SupervisorEvent where
  | startCall
  | loopExits

/-- The supervisor thread state is a list of every refresh-loop thread ever
spawned, newest first, each entry recording whether that thread is still
alive; `token_refresh_thread` is the head (`[]` models `None`). -/
def ThreadLog := List Bool

/-- `CloudMQTTClient.start_token_auto_refresh` (source lines 324-328):
spawns a new refresh-loop thread only when `token_refresh_thread` is `None`
or no longer alive. -/
def CloudMQTTClient.start_token_auto_refresh (threads : List Bool) : List Bool :=
  match threads with
  | [] => [true]
  | alive :: rest => if alive then alive :: rest else true :: alive :: rest

/-- The current refresh-loop thread exits (its `token_refresh_loop` returns). -/
def refreshLoopExits (threads : List Bool) : List Bool :=
  match threads with
  | [] => []
  | _ :: rest => false :: rest

/-- One supervisor event. -/
def superStep (threads : List Bool) : SupervisorEvent → List Bool
  | .startCall => CloudMQTTClient.start_token_auto_refresh threads
  | .loopExits => refreshLoopExits threads

/-- All supervisor events of a process lifetime, from the initial
`token_refresh_thread = None`. -/
def runSupervisor (events : List SupervisorEvent) : List Bool :=
  events.foldl superStep []

/-- Number of refresh-loop threads currently alive. -/
def aliveLoops (threads : List Bool) : ℕ :=
  (threads.filter (fun alive => alive)).length

/-! ### Derived cloud transport credential: `CloudMQTTClient.set_username_pw` -/

/-- The character substitution `str.maketrans("_-", "/+")` applied by
`set_username_pw` before splitting the token. -/
def translateChar (c : Char) : Char :=
  if c = '_' then '/' else if c = '-' then '+' else c

/-- Python `str.split(".")`: splits on every dot, `""` giving `[""]`. -/
def splitOnDot : List Char → List (List Char)
  | [] => [[]]
  | c :: rest =>
    let r := splitOnDot rest
    if c = '.' then [] :: r
    else
      match r with
      | h :: t => (c :: h) :: t
      | [] => [[c]]

/-- UTF-8 encoding of one character, as Python encodes a str before
percent-quoting. -/
def utf8Encode (c : Char) : List ℕ :=
  let n := c.toNat
  if n < 128 then [n]
  else if n < 2048 then [192 + n / 64, 128 + n % 64]
  else if n < 65536 then [224 + n / 4096, 128 + (n / 64) % 64, 128 + n % 64]
  else [240 + n / 262144, 128 + (n / 4096) % 64, 128 + (n / 64) % 64, 128 + n % 64]

/-- Upper-case hexadecimal digit. -/
def hexUpper (n : ℕ) : Char :=
  if n < 10 then Char.ofNat (48 + n) else Char.ofNat (55 + n)

/-- The bytes `urllib.parse.quote` leaves unescaped: ASCII letters, digits,
`_`, `.`, `-`, `~`, and the default safe character `/`. -/
def isQuoteSafe (b : ℕ) : Bool :=
  decide ((65 ≤ b ∧ b ≤ 90) ∨ (97 ≤ b ∧ b ≤ 122) ∨ (48 ≤ b ∧ b ≤ 57) ∨
    b = 95 ∨ b = 46 ∨ b = 45 ∨ b = 126 ∨ b = 47)

/-- Rendering of one byte by `urllib.parse.quote`. -/
def percentEncodeByte (b : ℕ) : String :=
  if isQuoteSafe b then String.singleton (Char.ofNat b)
  else String.singleton '%' ++ String.singleton (hexUpper (b / 16)) ++
    String.singleton (hexUpper (b % 16))

/-- `urllib.parse.quote` on one token segment. -/
def urlQuoteChars (cs : List Char) : String :=
  String.join (((cs.map utf8Encode).flatten).map percentEncodeByte)

/-- `CloudMQTTClient.set_username_pw` (source lines 261-265): translates
`_`/`-` to `/`/`+` in the access token, splits on `.`, and formats the
username from the URL-quoted segments at indices 0, 1 and 2 (`str.format`
ignores surplus positional arguments, so extra segments are dropped);
fewer than three segments raise an `IndexError`, modelled as `none`.
Returns the `(username, password)` pair handed to `username_pw_set`. -/
def CloudMQTTClient.set_username_pw (access_token : String) :
    Option (String × Option String) :=
  match splitOnDot (access_token.data.map translateChar) with
  | p0 :: p1 :: p2 :: _ =>
    some ("bot?jwt=" ++ urlQuoteChars p0 ++ "." ++ urlQuoteChars p1 ++
      "&x-amz-customauthorizer-name=\x27\x27&x-amz-customauthorizer-signature=" ++
      urlQuoteChars p2, none)
  | _ => none

/-! ## Helper lemmas -/

/-- The five backoff values at the loop indices `request` actually passes. -/
theorem backoff_values :
    CloudEndpointAPI.backoff 0 = 3 / 2 ∧ CloudEndpointAPI.backoff 1 = 3 ∧
    CloudEndpointAPI.backoff 2 = 6 ∧ CloudEndpointAPI.backoff 3 = 12 ∧
    CloudEndpointAPI.backoff 4 = 24 := by
  refine ⟨?_, ?_, ?_, ?_, ?_⟩ <;>
    · simp [CloudEndpointAPI.backoff, pyIntPow2, BACKOFF_FACTOR, MAX_BACKOFF]
      norm_num

/-- Evaluation of `request` when every HTTP attempt reports status 504. -/
theorem request_all_504 :
    CloudEndpointAPI.request (fun _ => (HttpResp.httpError 504 : HttpResp Unit)) =
      (.retNone, [CloudEndpointAPI.backoff 0]) := by
  norm_num [CloudEndpointAPI.request, CloudEndpointAPI.requestFrom, NUM_RETRIES]

/-- Once `auto_discover_sent` is true, further successful connects issue no
discovery notification. -/
theorem runConnects_after_sent (mowers : List Mower) :
    ∀ k : ℕ,
      (runConnects mowers (List.replicate k 0) ⟨true⟩).2 = [] := by
  intro k
  induction k with
  | zero => rfl
  | succ m ih =>
    simp [List.replicate_succ, runConnects, PrivateMQTTClient.on_connect, ih]

/-- Only the head of the supervisor thread log can be alive. -/
def tailDead (threads : List Bool) : Prop := ∀ b ∈ threads.tail, b = false

/-- One supervisor event preserves `tailDead`. -/
theorem superStep_tailDead (threads : List Bool) (e : SupervisorEvent)
    (h : tailDead threads) : tailDead (superStep threads e) := by
  cases e with
  | startCall =>
    cases threads with
    | nil =>
      intro b hb
      simp [superStep, CloudMQTTClient.start_token_auto_refresh] at hb
    | cons a rest =>
      by_cases ha : a = true
      · intro b hb
        simp [superStep, CloudMQTTClient.start_token_auto_refresh, ha] at hb
        exact h b (by simpa using hb)
      · intro b hb
        simp [superStep, CloudMQTTClient.start_token_auto_refresh, ha] at hb
        rcases hb with hb | hb
        · rw [hb]
        · exact h b (by simpa using hb)
  | loopExits =>
    cases threads with
    | nil => intro b hb; simp [superStep, refreshLoopExits] at hb
    | cons a rest =>
      intro b hb
      simp [superStep, refreshLoopExits] at hb
      exact h b (by simpa using hb)

/-- Folding supervisor events preserves `tailDead`. -/
theorem foldl_superStep_tailDead (events : List SupervisorEvent) :
    ∀ threads, tailDead threads → tailDead (events.foldl superStep threads) := by
  induction events with
  | nil => intro t h; exact h
  | cons e rest ih => intro t h; exact ih _ (superStep_tailDead t e h)

/-- A thread log whose tail is dead has at most one alive loop. -/
theorem aliveLoops_le_one (threads : List Bool) (h : tailDead threads) :
    aliveLoops threads ≤ 1 := by
  cases threads with
  | nil => simp [aliveLoops]
  | cons a rest =>
    have hrest : rest.filter (fun alive => alive) = [] := by
      rw [List.filter_eq_nil_iff]
      intro b hb
      simpa using h b hb
    cases a <;> simp [aliveLoops, List.filter_cons, hrest]

/-! ## Claim theorems -/

/-- Claim C1 (code bug in the source): with every HTTP attempt answering
status 504, `CloudEndpointAPI.request` ends after a single attempt through
the bare `return` of the 504 branch, sleeping `backoff 0 = 1.5` seconds and
yielding no result, instead of retrying up to `NUM_RETRIES` attempts and
raising the terminal connectivity error only after exhausting them. -/
theorem c1_request_504_returns_none :
    CloudEndpointAPI.request (fun _ => (HttpResp.httpError 504 : HttpResp Unit)) =
      (.retNone, [3 / 2]) ∧
    (RequestOutcome.retNone : RequestOutcome Unit) ≠ .connError := by
  refine ⟨?_, by decide⟩
  rw [request_all_504, backoff_values.1]

/-- Claim C2 counterexample: on repeated gateway timeouts the only delay the
transport ever sleeps before (what would be) retry attempt 1 is
`backoff 0 = 1.5` seconds, while the claim's formula `min(3·2^(1-1), 120)`
gives 3 seconds. -/
theorem c2_counterexample :
    (CloudEndpointAPI.request (fun _ => (HttpResp.httpError 504 : HttpResp Unit))).2 =
      [3 / 2] ∧
    (3 / 2 : ℚ) ≠ min (BACKOFF_FACTOR * pyIntPow2 ((1 : ℤ) - 1)) MAX_BACKOFF := by
  constructor
  · rw [request_all_504, backoff_values.1]
  · norm_num [pyIntPow2, BACKOFF_FACTOR, MAX_BACKOFF]

/-- Claim C2 as amended: `backoff k = min(3·2^(k-1), 120)`, but `request`
passes the 0-based loop index, so the computed delays over the five loop
iterations are 1.5, 3, 6, 12, 24 seconds — and because the 504 handler
returns after its first backoff, only the 1.5-second delay is ever slept. -/
theorem c2_amended_backoff_delays :
    (List.range NUM_RETRIES).map CloudEndpointAPI.backoff =
      [3 / 2, 3, 6, 12, 24] ∧
    (CloudEndpointAPI.request (fun _ => (HttpResp.httpError 504 : HttpResp Unit))).2 =
      [CloudEndpointAPI.backoff 0] := by
  constructor
  · have h := backoff_values
    norm_num [NUM_RETRIES, List.range_succ, h.1, h.2.1, h.2.2.1, h.2.2.2.1, h.2.2.2.2]
  · rw [request_all_504]

/-- Claim C3 counterexample: a message received from the cloud broker with
quality-of-service level 0 is forwarded with quality level `QOS_FLAG = 1`,
not with the received level. -/
theorem c3_counterexample :
    (CloudMQTTClient.on_message
        { topic := "fleet/42/out", payload := [123], qos := 0, retain := false }).qos ≠
      ({ topic := "fleet/42/out", payload := [123], qos := 0, retain := false } :
        MQTTMessage).qos := by
  decide

/-- Claim C3 as amended: the message `CloudMQTTClient.on_message` forwards
to the local session keeps the received topic and payload bytes unchanged,
has its retained flag forced true, and carries the fixed configured quality
level `QOS_FLAG` regardless of the received message's quality level. -/
theorem c3_amended_relay (msg : MQTTMessage) :
    (CloudMQTTClient.on_message msg).topic = msg.topic ∧
    (CloudMQTTClient.on_message msg).payload = msg.payload ∧
    (CloudMQTTClient.on_message msg).qos = QOS_FLAG ∧
    (CloudMQTTClient.on_message msg).retain = true :=
  ⟨rfl, rfl, rfl, rfl⟩

/-- Claim C4: over any number `n ≥ 1` of successful local-session connect
events with the same device list, starting from `auto_discover_sent =
false`, exactly one discovery notification is issued, carrying the full
device list; re-connections after the first never re-trigger it. -/
theorem c4_discovery_single_fire (mowers : List Mower) (n : ℕ) (h : 1 ≤ n) :
    (runConnects mowers (List.replicate n 0) ⟨false⟩).2 = [mowers] := by
  obtain ⟨m, rfl⟩ : ∃ m, n = m + 1 := ⟨n - 1, by omega⟩
  simpa [List.replicate_succ, runConnects, PrivateMQTTClient.on_connect] using
    runConnects_after_sent mowers m

/-- Witness for C4: two successive successful connect events with a
one-device list produce exactly one discovery notification. -/
theorem c4_witness :
    (runConnects
        [{ raw := { product_id := 1,
                    mqtt_topics := { command_in := "in", command_out := "out" } },
           model := none }]
        (List.replicate 2 0) ⟨false⟩).2 =
      [[{ raw := { product_id := 1,
                   mqtt_topics := { command_in := "in", command_out := "out" } },
          model := none }]] :=
  c4_discovery_single_fire
    [{ raw := { product_id := 1,
                mqtt_topics := { command_in := "in", command_out := "out" } },
       model := none }] 2 (by decide)

/-- Claim C5 counterexample: the shutdown trace of the termination-signal
handler does not start with the local session's disconnect (the retained
offline publish); it starts with the cloud session's supervisor stop. -/
theorem c5_counterexample :
    mainStop ≠
      PrivateMQTTClient.disconnect ++ CloudMQTTClient.disconnect ++
        [ShutdownEvent.exitProcess 0] ∧
    mainStop.head? ≠
      some (ShutdownEvent.publishAvailability availability_topic "offline" true) := by
  constructor <;> decide

/-- Claim C5 as amended: on a termination signal the Cloud Session is
disconnected first (stopping the Token Refresh Supervisor before closing
its transport), then the Local Session is disconnected (publishing the
retained offline availability message before closing its transport), then
the process exits with success status 0. -/
theorem c5_amended_shutdown_order :
    mainStop =
      [ShutdownEvent.stopSupervisor, ShutdownEvent.closeCloudTransport,
       ShutdownEvent.publishAvailability availability_topic "offline" true,
       ShutdownEvent.closeLocalTransport, ShutdownEvent.exitProcess 0] := rfl

/-- Claim C6: `is_token_expired` is true exactly when `now` has reached
`token_expire`; the boundary instant counts as expired, and any instant
strictly before it does not. -/
theorem c6_expiry_boundary (st : TokenState) (now : ℤ) :
    (CloudEndpointAPI.is_token_expired st now = true ↔ now ≥ st.token_expire) ∧
    CloudEndpointAPI.is_token_expired ⟨none, none, now + 3600⟩ now = false ∧
    CloudEndpointAPI.is_token_expired ⟨none, none, now + 3600⟩ (now + 3600) = true ∧
    CloudEndpointAPI.is_token_expired ⟨none, none, now + 3600⟩ (now + 3601) = true := by
  constructor
  · simp [CloudEndpointAPI.is_token_expired]
  · refine ⟨?_, ?_, ?_⟩ <;>
      simp only [CloudEndpointAPI.is_token_expired, decide_eq_true_eq,
        decide_eq_false_iff_not, ge_iff_le] <;>
      omega

/-- Claim C7: `get_mowers` returns every fetched device, in the order
received, and each device's `model` is the catalog entry resolved by
`get_model` when one matches its product identifier, or `None` when no
catalog entry matches — the device is kept either way. -/
theorem c7_get_mowers_preserves (ms : List RawMower) (ps : List Product) :
    (CloudEndpointAPI.get_mowers ms ps).map Mower.raw = ms ∧
    (CloudEndpointAPI.get_mowers ms ps).map Mower.model =
      ms.map (fun m => (CloudEndpointAPI.get_model ps m.product_id).map mkModelInfo) := by
  induction ms with
  | nil => simp [CloudEndpointAPI.get_mowers]
  | cons m rest ih =>
    cases h : CloudEndpointAPI.get_model ps m.product_id <;>
      simp [CloudEndpointAPI.get_mowers, h, ih.1, ih.2, mkModelInfo]

/-- Claim C8: when the token-endpoint response lacks `access_token` or
`refresh_token`, `get_token` ends in the authorization error, and the
stored token pair is not left partially updated: it holds the prior pair or
the response's pair (here always the response's pair, both fields being
assigned from the response together). -/
theorem c8_missing_token_field (st : TokenState) (resp : TokenResponse) (now : ℤ)
    (h : resp.access_token = none ∨ resp.refresh_token = none) :
    (CloudEndpointAPI.get_token st resp now).1 = GetTokenResult.authError ∧
    (((CloudEndpointAPI.get_token st resp now).2.access_token,
      (CloudEndpointAPI.get_token st resp now).2.refresh_token) =
        (st.access_token, st.refresh_token) ∨
     ((CloudEndpointAPI.get_token st resp now).2.access_token,
      (CloudEndpointAPI.get_token st resp now).2.refresh_token) =
        (resp.access_token, resp.refresh_token)) := by
  constructor
  · rcases h with h | h <;> simp [CloudEndpointAPI.get_token, h, pyFalsy]
  · right
    rcases h with h | h <;> simp [CloudEndpointAPI.get_token, h, pyFalsy]

/-- Witness for C8: a response carrying a fresh access token but no refresh
token ends in the authorization error and leaves the pair at the response's
values. -/
theorem c8_witness :
    (CloudEndpointAPI.get_token ⟨some "A", some "R", 0⟩
        ⟨some "B", none, some 3600⟩ 0).1 = GetTokenResult.authError ∧
    (((CloudEndpointAPI.get_token ⟨some "A", some "R", 0⟩
          ⟨some "B", none, some 3600⟩ 0).2.access_token,
      (CloudEndpointAPI.get_token ⟨some "A", some "R", 0⟩
          ⟨some "B", none, some 3600⟩ 0).2.refresh_token) =
        ((⟨some "A", some "R", 0⟩ : TokenState).access_token,
         (⟨some "A", some "R", 0⟩ : TokenState).refresh_token) ∨
     ((CloudEndpointAPI.get_token ⟨some "A", some "R", 0⟩
          ⟨some "B", none, some 3600⟩ 0).2.access_token,
      (CloudEndpointAPI.get_token ⟨some "A", some "R", 0⟩
          ⟨some "B", none, some 3600⟩ 0).2.refresh_token) =
        ((⟨some "B", none, some 3600⟩ : TokenResponse).access_token,
         (⟨some "B", none, some 3600⟩ : TokenResponse).refresh_token)) :=
  c8_missing_token_field ⟨some "A", some "R", 0⟩ ⟨some "B", none, some 3600⟩ 0
    (Or.inr rfl)

/-- Claim C9: across any sequence of supervisor events, at most one
refresh loop is alive at any time, and calling
`start_token_auto_refresh` twice in a row from the initial state spawns
exactly one loop thread. -/
theorem c9_supervisor_single_loop (events : List SupervisorEvent) :
    aliveLoops (runSupervisor events) ≤ 1 ∧
    runSupervisor [SupervisorEvent.startCall, SupervisorEvent.startCall] = [true] := by
  refine ⟨?_, rfl⟩
  exact aliveLoops_le_one _
    (foldl_superStep_tailDead events [] (by intro b hb; simp at hb))

/-- Claim C10 counterexample: the access token `"a.b.c.d"` splits into four
segments, yet `set_username_pw` does not raise — `str.format` ignores the
surplus segment and a username is produced. -/
theorem c10_counterexample :
    ((splitOnDot (("a.b.c.d").data.map translateChar)).length ≠ 3) ∧
    (CloudMQTTClient.set_username_pw "a.b.c.d").isSome = true := by
  constructor <;> decide

/-- Claim C10 as amended: `set_username_pw` is defined exactly for access
tokens whose translated form splits on `.` into at least three segments:
for every such token the username embeds the URL-quoted first three
segments in the fixed format and the password is null, surplus segments
being ignored; with fewer than three segments the operation raises. -/
theorem c10_amended_username_format :
    (∀ (tok : String) (p0 p1 p2 : List Char) (rest : List (List Char)),
        splitOnDot (tok.data.map translateChar) = p0 :: p1 :: p2 :: rest →
        CloudMQTTClient.set_username_pw tok =
          some ("bot?jwt=" ++ urlQuoteChars p0 ++ "." ++ urlQuoteChars p1 ++
            "&x-amz-customauthorizer-name=\x27\x27&x-amz-customauthorizer-signature=" ++
            urlQuoteChars p2, none)) ∧
    (∀ tok : String,
        (splitOnDot (tok.data.map translateChar)).length < 3 →
        CloudMQTTClient.set_username_pw tok = none) := by
  constructor
  · intro tok p0 p1 p2 rest h
    unfold CloudMQTTClient.set_username_pw
    rw [h]
  · intro tok h
    unfold CloudMQTTClient.set_username_pw
    rcases hs : splitOnDot (tok.data.map translateChar) with _ | ⟨a, _ | ⟨b, _ | ⟨c, t⟩⟩⟩
    · rfl
    · rfl
    · rfl
    · exfalso; rw [hs] at h; simp at h; omega

/-- Witness for C10: the three-segment token `"a.b.c"` yields the formatted
username with null password, and the one-segment token `"a"` raises. -/
theorem c10_witness :
    CloudMQTTClient.set_username_pw "a.b.c" =
      some ("bot?jwt=" ++ urlQuoteChars ['a'] ++ "." ++ urlQuoteChars ['b'] ++
        "&x-amz-customauthorizer-name=\x27\x27&x-amz-customauthorizer-signature=" ++
        urlQuoteChars ['c'], none) ∧
    CloudMQTTClient.set_username_pw "a" = none :=
  ⟨c10_amended_username_format.1 "a.b.c" ['a'] ['b'] ['c'] [] (by decide),
   c10_amended_username_format.2 "a" (by decide)⟩
